import Mathlib

/-!
Shallow embedding of `src/invoice_service.py`: a pricing engine that
validates an invoice and computes its payable total together with a list
of advisory warnings.  Python floats are modelled by `ℚ`, Python dicts by
association lists with an explicit lookup, and the mutated `warnings`
list by explicit list results that the orchestrator concatenates in the
order the Python code appends.
-/

/-- One purchased product line (`LineItem` dataclass). -/
structure LineItem where
  sku : String
  category : String
  unit_price : ℚ
  qty : Int
  fragile : Bool
deriving DecidableEq, Repr

/-- One pricing request (`Invoice` dataclass); `coupon` is `Optional[str]`. -/
structure Invoice where
  invoice_id : String
  customer_id : String
  country : String
  membership : String
  coupon : Option String
  items : List LineItem
deriving DecidableEq, Repr

/-- `dict.get(k)`: first value bound to `k` in the association list, else `none`. -/
def dictGet? {α : Type} (tbl : List (String × α)) (k : String) : Option α :=
  match tbl with
  | [] => none
  | (k', v) :: rest => if k = k' then some v else dictGet? rest k

/-- `ALLOWED_CATEGORIES` (a set in Python; only membership tests are used). -/
def ALLOWED_CATEGORIES : List String := ["book", "food", "electronics", "other"]

/-- `FRAGILE_FEE_PER_UNIT = 5.0`. -/
def FRAGILE_FEE_PER_UNIT : ℚ := 5

/-- `SHIPPING_RULES`: country ↦ ordered (threshold, fee) list. -/
def SHIPPING_RULES : List (String × List (ℚ × ℚ)) :=
  [("TH", [(500, 60)]),
   ("JP", [(4000, 600)]),
   ("US", [(100, 15), (300, 8)]),
   ("DEFAULT", [(200, 25)])]

/-- `TAX_RATE`: country ↦ flat tax rate. -/
def TAX_RATE : List (String × ℚ) :=
  [("TH", 7/100), ("JP", 10/100), ("US", 8/100), ("DEFAULT", 5/100)]

/-- `MEMBERSHIP_DISCOUNT_RATE`: tier ↦ rate. -/
def MEMBERSHIP_DISCOUNT_RATE : List (String × ℚ) :=
  [("gold", 3/100), ("platinum", 5/100)]

/-- `NON_MEMBER_BULK_THRESHOLD = 3000`. -/
def NON_MEMBER_BULK_THRESHOLD : ℚ := 3000

/-- `NON_MEMBER_BULK_DISCOUNT = 20.0`. -/
def NON_MEMBER_BULK_DISCOUNT : ℚ := 20

/-- `UPGRADE_HINT_THRESHOLD = 10000`. -/
def UPGRADE_HINT_THRESHOLD : ℚ := 10000

/-- `self._coupon_rate`: coupon code ↦ rate. -/
def coupon_rate : List (String × ℚ) :=
  [("WELCOME10", 10/100), ("VIP20", 20/100), ("STUDENT5", 5/100)]

/-- Problems contributed by one line item, in the order `_validate` appends them. -/
def itemProblems (it : LineItem) : List String :=
  (if it.sku = "" then ["Item sku is missing"] else []) ++
  (if it.qty ≤ 0 then ["Invalid qty for " ++ it.sku] else []) ++
  (if it.unit_price < 0 then ["Invalid price for " ++ it.sku] else []) ++
  (if it.category ∈ ALLOWED_CATEGORIES then [] else ["Unknown category for " ++ it.sku])

/-- `InvoiceService._validate` (the `inv is None` branch is unrepresentable here:
an `Invoice` value always exists). -/
def validate (inv : Invoice) : List String :=
  let problems :=
    (if inv.invoice_id = "" then ["Missing invoice_id"] else []) ++
    (if inv.customer_id = "" then ["Missing customer_id"] else [])
  if inv.items = [] then
    problems ++ ["Invoice must contain items"]
  else
    problems ++ inv.items.flatMap itemProblems

/-- `InvoiceService._subtotal`: Σ unit_price·qty over all items in order. -/
def subtotal (items : List LineItem) : ℚ :=
  (items.map (fun it => it.unit_price * (it.qty : ℚ))).sum

/-- `InvoiceService._fragile_fee`: Σ FRAGILE_FEE_PER_UNIT·qty over fragile items. -/
def fragile_fee (items : List LineItem) : ℚ :=
  ((items.filter (fun it => it.fragile)).map
    (fun it => FRAGILE_FEE_PER_UNIT * (it.qty : ℚ))).sum

/-- The `for threshold, fee in rules` scan of `_shipping_fee`:
fee of the first entry with `subtotal < threshold`, else 0. -/
def firstFee (rules : List (ℚ × ℚ)) (s : ℚ) : ℚ :=
  match rules with
  | [] => 0
  | (threshold, fee) :: rest => if s < threshold then fee else firstFee rest s

/-- `SHIPPING_RULES.get(country, SHIPPING_RULES["DEFAULT"])`. -/
def rulesFor (country : String) : List (ℚ × ℚ) :=
  (dictGet? SHIPPING_RULES country).getD ((dictGet? SHIPPING_RULES "DEFAULT").getD [])

/-- `InvoiceService._shipping_fee`. -/
def shipping_fee (country : String) (s : ℚ) : ℚ :=
  firstFee (rulesFor country) s

/-- Python `str.strip()`: remove leading and trailing whitespace (modelled
structurally over the character list so it is kernel-computable). -/
def pyStrip (s : String) : String :=
  String.mk (((s.data.dropWhile Char.isWhitespace).reverse.dropWhile
    Char.isWhitespace).reverse)

/-- `InvoiceService._discount`: returns the discount amount together with the
warnings it appends (in order) to the caller's warnings list. -/
def discount (inv : Invoice) (s : ℚ) : ℚ × List String :=
  let base : ℚ :=
    match dictGet? MEMBERSHIP_DISCOUNT_RATE inv.membership with
    | some rate => s * rate
    | none => if s > NON_MEMBER_BULK_THRESHOLD then NON_MEMBER_BULK_DISCOUNT else 0
  let code := pyStrip (inv.coupon.getD "")
  if code = "" then
    (base, [])
  else
    match dictGet? coupon_rate code with
    | none => (base, ["Unknown coupon"])
    | some rate => (base + s * rate, [])

/-- `InvoiceService._tax`. -/
def tax (country : String) (taxable_amount : ℚ) : ℚ :=
  let rate := (dictGet? TAX_RATE country).getD ((dictGet? TAX_RATE "DEFAULT").getD 0)
  max taxable_amount 0 * rate

/-- `InvoiceService._append_warnings`: the warnings it appends to the caller's list. -/
def append_warnings (inv : Invoice) (s : ℚ) : List String :=
  if s > UPGRADE_HINT_THRESHOLD ∧ dictGet? MEMBERSHIP_DISCOUNT_RATE inv.membership = none then
    ["Consider membership upgrade"]
  else
    []

/-- `InvoiceService.compute_total`: the raised `ValueError` becomes `.error`,
success becomes `.ok (total, warnings)`. -/
def compute_total (inv : Invoice) : Except String (ℚ × List String) :=
  match validate inv with
  | [] =>
    let st := subtotal inv.items
    let fragileFee := fragile_fee inv.items
    let shipping := shipping_fee inv.country st
    let dw := discount inv st
    let taxAmt := tax inv.country (st - dw.1)
    let total := max (st + shipping + fragileFee + taxAmt - dw.1) 0
    .ok (total, dw.2 ++ append_warnings inv st)
  | problems => .error (String.intercalate "; " problems)

/-! Stage-value abbreviations used to state the claims. -/

/-- Subtotal stage value of an invoice. -/
def subtotalOf (inv : Invoice) : ℚ := subtotal inv.items

/-- Fragile-fee stage value of an invoice. -/
def fragileOf (inv : Invoice) : ℚ := fragile_fee inv.items

/-- Shipping stage value of an invoice. -/
def shippingOf (inv : Invoice) : ℚ := shipping_fee inv.country (subtotalOf inv)

/-- Discount stage value of an invoice. -/
def discountOf (inv : Invoice) : ℚ := (discount inv (subtotalOf inv)).1

/-- Warnings appended by the discount stage. -/
def discountWarnings (inv : Invoice) : List String := (discount inv (subtotalOf inv)).2

/-- Tax stage value of an invoice (tax on subtotal − discount, as the orchestrator calls it). -/
def taxOf (inv : Invoice) : ℚ := tax inv.country (subtotalOf inv - discountOf inv)

/-- C1: for every invoice that passes validation, `compute_total` returns
`total = max(subtotal + shipping + fragileFee + tax − discount, 0)` built from the
four stage values, and in particular every returned total is ≥ 0. -/
theorem compute_total_formula (inv : Invoice) (h : validate inv = []) :
    compute_total inv =
      .ok (max (subtotalOf inv + shippingOf inv + fragileOf inv + taxOf inv - discountOf inv) 0,
        discountWarnings inv ++ append_warnings inv (subtotalOf inv)) ∧
    ∀ t w, compute_total inv = .ok (t, w) → 0 ≤ t := by
  constructor
  · simp only [compute_total, h, subtotalOf, fragileOf, shippingOf, discountOf,
      discountWarnings, taxOf]
  · intro t w hw
    simp only [compute_total, h] at hw
    have ht : t = max (subtotal inv.items + shipping_fee inv.country (subtotal inv.items) +
        fragile_fee inv.items + tax inv.country
          (subtotal inv.items - (discount inv (subtotal inv.items)).1) -
        (discount inv (subtotal inv.items)).1) 0 := by
      cases hw; rfl
    rw [ht]
    exact le_max_right _ _

/-- Witness invoice: one valid single-item US invoice. -/
def wInv : Invoice :=
  { invoice_id := "INV-1", customer_id := "C-1", country := "US", membership := "none",
    coupon := none,
    items := [{ sku := "A1", category := "other", unit_price := 250, qty := 1,
                fragile := false }] }

/-- Witness for C1 at `wInv`. -/
theorem compute_total_formula_witness :
    compute_total wInv =
      .ok (max (subtotalOf wInv + shippingOf wInv + fragileOf wInv + taxOf wInv -
        discountOf wInv) 0,
        discountWarnings wInv ++ append_warnings wInv (subtotalOf wInv)) ∧
    ∀ t w, compute_total wInv = .ok (t, w) → 0 ≤ t :=
  compute_total_formula wInv (by decide)

/-- C2: `compute_total` fails exactly when the validator finds a problem, with the
problems joined by "; " in detection order as the message, and no result in that case;
when the validator finds none, a `(total, warnings)` result is produced. -/
theorem compute_total_error_iff (inv : Invoice) :
    (validate inv ≠ [] →
      compute_total inv = .error (String.intercalate "; " (validate inv))) ∧
    (validate inv = [] → ∃ t w, compute_total inv = .ok (t, w)) := by
  constructor
  · intro h
    rw [compute_total]
    cases hv : validate inv with
    | nil => exact absurd hv h
    | cons p ps => rfl
  · intro h
    rw [compute_total]
    rw [h]
    exact ⟨_, _, rfl⟩

/-- An invoice the validator rejects: missing invoice_id, one item with qty 0. -/
def badInv : Invoice :=
  { invoice_id := "", customer_id := "C-2", country := "TH", membership := "",
    coupon := none,
    items := [{ sku := "B1", category := "book", unit_price := 10, qty := 0,
                fragile := false }] }

/-- Witness for C2: the error branch at `badInv`, the success branch at `wInv`. -/
theorem compute_total_error_iff_witness :
    compute_total badInv =
      .error (String.intercalate "; " (validate badInv)) ∧
    ∃ t w, compute_total wInv = .ok (t, w) :=
  ⟨(compute_total_error_iff badInv).1 (by decide),
   (compute_total_error_iff wInv).2 (by decide)⟩

/-- An invoice with empty items but also an empty invoice_id. -/
def cexInv : Invoice :=
  { invoice_id := "", customer_id := "C-3", country := "US", membership := "",
    coupon := none, items := [] }

/-- C3 counterexample: `cexInv` has empty items, yet the validator returns two
problems ("Missing invoice_id" first), not exactly the one the claim states. -/
theorem validate_empty_items_cex :
    cexInv.items = [] ∧
    validate cexInv = ["Missing invoice_id", "Invoice must contain items"] ∧
    validate cexInv ≠ ["Invoice must contain items"] := by
  refine ⟨rfl, by decide, by decide⟩

/-- C3 (amended): for every invoice with non-empty invoice_id and customer_id and an
empty items sequence, the validator returns exactly ["Invoice must contain items"];
in particular no per-item problem is ever reported. -/
theorem validate_empty_items (inv : Invoice) (h1 : inv.invoice_id ≠ "")
    (h2 : inv.customer_id ≠ "") (h3 : inv.items = []) :
    validate inv = ["Invoice must contain items"] := by
  simp [validate, h1, h2, h3]

/-- An invoice with empty items and both identifiers present. -/
def emptyItemsInv : Invoice :=
  { invoice_id := "INV-4", customer_id := "C-4", country := "US", membership := "",
    coupon := none, items := [] }

/-- Witness for the amended C3 at `emptyItemsInv`. -/
theorem validate_empty_items_witness :
    validate emptyItemsInv = ["Invoice must contain items"] :=
  validate_empty_items emptyItemsInv (by decide) (by decide) (by decide)

/-- The coupon contribution of `_discount`: `subtotal × couponRate` when the trimmed
coupon code is non-empty and present in the coupon table, else 0. -/
def couponComponent (inv : Invoice) (s : ℚ) : ℚ :=
  let code := (pyStrip (inv.coupon.getD ""))
  if code = "" then 0
  else
    match dictGet? coupon_rate code with
    | none => 0
    | some rate => s * rate

/-- The membership-or-bulk contribution of `_discount`: `subtotal × membershipRate`
when the tier is a key of the membership table, else the flat bulk discount when
`subtotal > bulkThreshold`, else 0. -/
def baseDiscount (inv : Invoice) (s : ℚ) : ℚ :=
  match dictGet? MEMBERSHIP_DISCOUNT_RATE inv.membership with
  | some rate => s * rate
  | none => if s > NON_MEMBER_BULK_THRESHOLD then NON_MEMBER_BULK_DISCOUNT else 0

/-- Decomposition of the discount amount into its base and coupon components. -/
theorem discount_fst_eq (inv : Invoice) (s : ℚ) :
    (discount inv s).1 = baseDiscount inv s + couponComponent inv s := by
  rw [discount, baseDiscount, couponComponent]
  by_cases hc : (pyStrip (inv.coupon.getD "")) = ""
  · simp [hc]
  · simp only [hc, if_neg hc, if_false]
    cases dictGet? coupon_rate (pyStrip (inv.coupon.getD "")) <;> simp

/-- C4: the discount is exactly one of the two mutually exclusive base components —
`subtotal × membershipRate` when the tier is a table key, else the bulk discount when
`subtotal > bulkThreshold`, else 0 — plus the coupon component; the bulk discount is
never added when the membership tier is a key, regardless of subtotal. -/
theorem discount_membership_exclusive (inv : Invoice) (s : ℚ) :
    (∀ rate, dictGet? MEMBERSHIP_DISCOUNT_RATE inv.membership = some rate →
      (discount inv s).1 = s * rate + couponComponent inv s) ∧
    (dictGet? MEMBERSHIP_DISCOUNT_RATE inv.membership = none →
      (discount inv s).1 =
        (if s > NON_MEMBER_BULK_THRESHOLD then NON_MEMBER_BULK_DISCOUNT else 0) +
          couponComponent inv s) := by
  constructor
  · intro rate hr
    rw [discount_fst_eq, baseDiscount, hr]
  · intro hn
    rw [discount_fst_eq, baseDiscount, hn]

/-- The stacking example of C4: subtotal 1000, gold membership, coupon WELCOME10. -/
def goldInv : Invoice :=
  { invoice_id := "INV-5", customer_id := "C-5", country := "US", membership := "gold",
    coupon := some "WELCOME10",
    items := [{ sku := "G1", category := "other", unit_price := 1000, qty := 1,
                fragile := false }] }

/-- Witness for C4: at `goldInv` with subtotal 1000 the discount is
1000×0.03 + 1000×0.10 = 130. -/
theorem discount_membership_exclusive_witness :
    (discount goldInv 1000).1 = 130 := by
  have h := (discount_membership_exclusive goldInv 1000).1 (3/100) rfl
  have hcode : pyStrip (goldInv.coupon.getD "") = "WELCOME10" := by decide
  have hcp : couponComponent goldInv 1000 = 1000 * (10/100) := by
    simp only [couponComponent]
    rw [hcode]
    norm_num [dictGet?, coupon_rate]
    decide
  rw [h, hcp]
  norm_num

/-- C5: the coupon code is trimmed; if the trimmed code is empty the discount stage
returns the base discount and appends nothing; if it is non-empty and absent from the
coupon table it appends exactly "Unknown coupon" and leaves the discount unchanged;
if it is present it adds `subtotal × couponRate` and appends nothing. -/
theorem discount_coupon_handling (inv : Invoice) (s : ℚ) :
    ((pyStrip (inv.coupon.getD "") = "") → discount inv s = (baseDiscount inv s, [])) ∧
    ((pyStrip (inv.coupon.getD "") ≠ "") →
      (dictGet? coupon_rate (pyStrip (inv.coupon.getD "")) = none →
        discount inv s = (baseDiscount inv s, ["Unknown coupon"])) ∧
      (∀ rate, dictGet? coupon_rate (pyStrip (inv.coupon.getD "")) = some rate →
        discount inv s = (baseDiscount inv s + s * rate, []))) := by
  constructor
  · intro hc
    rw [discount, baseDiscount]
    simp [hc]
  · intro hc
    constructor
    · intro hn
      rw [discount, baseDiscount]
      simp only [if_neg hc, hn]
    · intro rate hr
      rw [discount, baseDiscount]
      simp only [if_neg hc, hr]

/-- An otherwise-valid invoice carrying the unknown coupon "BOGUS". -/
def bogusInv : Invoice :=
  { invoice_id := "INV-6", customer_id := "C-6", country := "US", membership := "",
    coupon := some "BOGUS",
    items := [{ sku := "X1", category := "other", unit_price := 250, qty := 1,
                fragile := false }] }

/-- Witness for C5: the unknown coupon "BOGUS" yields the warning and leaves the
discount at its base value; the known coupon "WELCOME10" adds 1000×0.10. -/
theorem discount_coupon_handling_witness :
    discount bogusInv 250 = (baseDiscount bogusInv 250, ["Unknown coupon"]) ∧
    discount goldInv 1000 = (baseDiscount goldInv 1000 + 1000 * (10/100), []) :=
  ⟨((discount_coupon_handling bogusInv 250).2 (by decide)).1 (by decide),
   ((discount_coupon_handling goldInv 1000).2 (by decide)).2 (10/100) rfl⟩

/-- Characterization of the `_shipping_fee` scan: its result is the fee of the first
entry whose threshold strictly exceeds `s`, or 0 when no entry matches. -/
theorem firstFee_spec (rules : List (ℚ × ℚ)) (s : ℚ) :
    (∃ pre t f suf, rules = pre ++ (t, f) :: suf ∧ (∀ p ∈ pre, ¬ s < p.1) ∧ s < t ∧
      firstFee rules s = f) ∨
    ((∀ p ∈ rules, ¬ s < p.1) ∧ firstFee rules s = 0) := by
  induction rules with
  | nil => exact Or.inr ⟨by simp, rfl⟩
  | cons hd tl ih =>
    obtain ⟨t, f⟩ := hd
    by_cases hs : s < t
    · exact Or.inl ⟨[], t, f, tl, rfl, by simp, hs, by simp [firstFee, hs]⟩
    · rcases ih with ⟨pre, t', f', suf, heq, hpre, hlt, hval⟩ | ⟨hall, hval⟩
      · refine Or.inl ⟨(t, f) :: pre, t', f', suf, by rw [heq, List.cons_append], ?_, hlt, ?_⟩
        · intro p hp
          rcases List.mem_cons.mp hp with h | h
          · subst h; exact hs
          · exact hpre p h
        · simp [firstFee, hs, hval]
      · refine Or.inr ⟨?_, by simp [firstFee, hs, hval]⟩
        intro p hp
        rcases List.mem_cons.mp hp with h | h
        · subst h; exact hs
        · exact hall p h

/-- C6: the shipping fee is the fee of the first (threshold, fee) entry, in list
order, of the country's rule list — the default list when the country is absent from
the table — whose threshold strictly exceeds the subtotal, and 0 when no entry
matches. -/
theorem shipping_fee_first_match (country : String) (s : ℚ) :
    (dictGet? SHIPPING_RULES country = none → rulesFor country = [(200, 25)]) ∧
    ((∃ pre t f suf, rulesFor country = pre ++ (t, f) :: suf ∧
        (∀ p ∈ pre, ¬ s < p.1) ∧ s < t ∧ shipping_fee country s = f) ∨
      ((∀ p ∈ rulesFor country, ¬ s < p.1) ∧ shipping_fee country s = 0)) := by
  constructor
  · intro h
    rw [rulesFor, h]
    rfl
  · exact firstFee_spec (rulesFor country) s

/-- Witness for C6 at the unknown country "ZZ": the default rules apply, and at
subtotal 100 the first matching tier (threshold 200) yields fee 25. -/
theorem shipping_fee_first_match_witness :
    rulesFor "ZZ" = [(200, 25)] :=
  (shipping_fee_first_match "ZZ" 100).1 rfl

/-- `TAX_RATE.get(country, TAX_RATE["DEFAULT"])`: the country's tax rate, the
default rate when the country is absent from the tax table. -/
def taxRateFor (country : String) : ℚ :=
  (dictGet? TAX_RATE country).getD ((dictGet? TAX_RATE "DEFAULT").getD 0)

/-- C7: tax is `max(taxableAmount, 0)` times the country's tax rate (default rate
for unknown countries) — so clamping the amount first changes nothing — and the
orchestrator passes `subtotal − discount` as the taxable amount. -/
theorem tax_clamped_base (country : String) (t : ℚ) (inv : Invoice)
    (h : validate inv = []) :
    tax country t = max t 0 * taxRateFor country ∧
    (dictGet? TAX_RATE country = none → taxRateFor country = 5/100) ∧
    tax country t = tax country (max t 0) ∧
    ∃ w, compute_total inv =
      .ok (max (subtotalOf inv + shippingOf inv + fragileOf inv +
        tax inv.country (subtotalOf inv - discountOf inv) - discountOf inv) 0, w) := by
  refine ⟨rfl, ?_, ?_, ?_⟩
  · intro hn
    rw [taxRateFor, hn]
    rfl
  · rw [tax, tax]
    have : max (max t 0) 0 = max t 0 := max_eq_left (le_max_right t 0)
    rw [this]
  · simp only [compute_total, h, subtotalOf, fragileOf, shippingOf, discountOf]
    exact ⟨_, rfl⟩

/-- Witness for C7 at the unknown country "FR", a negative taxable amount, and `wInv`. -/
theorem tax_clamped_base_witness :
    tax "FR" (-5) = max (-5) 0 * taxRateFor "FR" ∧
    taxRateFor "FR" = 5/100 ∧
    tax "FR" (-5) = tax "FR" (max (-5) 0) ∧
    ∃ w, compute_total wInv =
      .ok (max (subtotalOf wInv + shippingOf wInv + fragileOf wInv +
        tax wInv.country (subtotalOf wInv - discountOf wInv) - discountOf wInv) 0, w) :=
  have h := tax_clamped_base "FR" (-5) wInv (by decide)
  ⟨h.1, h.2.1 rfl, h.2.2.1, h.2.2.2⟩

/-- The shipping rule list resolved for any country string is one of the four
configured lists. -/
theorem rulesFor_cases (country : String) :
    rulesFor country = [(500, 60)] ∨ rulesFor country = [(4000, 600)] ∨
    rulesFor country = [(100, 15), (300, 8)] ∨ rulesFor country = [(200, 25)] := by
  rw [rulesFor]
  simp only [SHIPPING_RULES, dictGet?]
  split_ifs <;> simp

/-- C8: with the shipped rate tables, for every country string (all countries of the
table, and every unknown country through the default rules) the shipping fee is
non-increasing in the subtotal. -/
theorem shipping_fee_monotone (country : String) (s1 s2 : ℚ) (h : s1 ≤ s2) :
    shipping_fee country s2 ≤ shipping_fee country s1 := by
  rcases rulesFor_cases country with hc | hc | hc | hc <;>
    simp only [shipping_fee, hc, firstFee] <;> split_ifs <;> linarith

/-- Witness for C8: for US rules the fee at subtotal 200 is at most the fee at 50. -/
theorem shipping_fee_monotone_witness :
    shipping_fee "US" 200 ≤ shipping_fee "US" 50 :=
  shipping_fee_monotone "US" 50 200 (by norm_num)

/-- The discount stage appends either nothing or exactly "Unknown coupon". -/
theorem discount_snd_cases (inv : Invoice) (s : ℚ) :
    (discount inv s).2 = [] ∨ (discount inv s).2 = ["Unknown coupon"] := by
  rw [discount]
  by_cases hc : pyStrip (inv.coupon.getD "") = ""
  · simp [hc]
  · simp only [if_neg hc]
    cases dictGet? coupon_rate (pyStrip (inv.coupon.getD "")) <;> simp

/-- The warning finalization appends either nothing or exactly
"Consider membership upgrade". -/
theorem append_warnings_cases (inv : Invoice) (s : ℚ) :
    append_warnings inv s = [] ∨
    append_warnings inv s = ["Consider membership upgrade"] := by
  rw [append_warnings]
  split_ifs <;> simp

/-- C9: the warnings of every successful `compute_total` run form a subsequence of
["Unknown coupon", "Consider membership upgrade"]: at most two elements, no
duplicates, no other strings, and "Unknown coupon" first when both occur. -/
theorem warnings_sublist (inv : Invoice) (h : validate inv = []) (t : ℚ)
    (w : List String) (hw : compute_total inv = .ok (t, w)) :
    w.Sublist ["Unknown coupon", "Consider membership upgrade"] := by
  simp only [compute_total, h] at hw
  have hweq : w = (discount inv (subtotal inv.items)).2 ++
      append_warnings inv (subtotal inv.items) := by
    cases hw; rfl
  rw [hweq]
  rcases discount_snd_cases inv (subtotal inv.items) with h1 | h1 <;>
    rcases append_warnings_cases inv (subtotal inv.items) with h2 | h2 <;>
      rw [h1, h2] <;> simp

/-- Witness for C9: the valid invoice `bogusInv` produces warnings
["Unknown coupon"], a subsequence of the allowed two-element list. -/
theorem warnings_sublist_witness :
    compute_total bogusInv = .ok (278, ["Unknown coupon"]) ∧
    List.Sublist ["Unknown coupon"] ["Unknown coupon", "Consider membership upgrade"] := by
  have h1 : validate bogusInv = [] := by decide
  have hcode : pyStrip (bogusInv.coupon.getD "") = "BOGUS" := by decide
  have hst : subtotal bogusInv.items = 250 := by
    norm_num [subtotal, bogusInv]
  have hd : discount bogusInv 250 = (0, ["Unknown coupon"]) := by
    simp only [discount, hcode]
    decide
  have hsh : shipping_fee bogusInv.country 250 = 8 := by decide
  have hfr : fragile_fee bogusInv.items = 0 := by decide
  have haw : append_warnings bogusInv 250 = [] := by decide
  have htx : tax bogusInv.country (250 - 0) = 20 := by
    have hr : dictGet? TAX_RATE bogusInv.country = some (8/100) := rfl
    simp only [tax, hr, Option.getD_some]
    rw [max_eq_left (by norm_num : (0:ℚ) ≤ 250 - 0)]
    norm_num
  have hw : compute_total bogusInv = .ok (278, ["Unknown coupon"]) := by
    simp only [compute_total, h1, hst, hd, hsh, hfr, haw, htx, List.append_nil]
    rw [max_eq_left (by norm_num : (0:ℚ) ≤ 250 + 8 + 0 + 20 - 0)]
    norm_num
  exact ⟨hw, warnings_sublist bogusInv h1 278 ["Unknown coupon"] hw⟩

/-- Two line items that agree on everything except possibly their (non-empty) skus. -/
def ItemsMatch (a b : LineItem) : Prop :=
  a.category = b.category ∧ a.unit_price = b.unit_price ∧ a.qty = b.qty ∧
    a.fragile = b.fragile ∧ a.sku ≠ "" ∧ b.sku ≠ ""

/-- Items matching up to skus have the same subtotal. -/
theorem subtotal_congr {l1 l2 : List LineItem} (h : List.Forall₂ ItemsMatch l1 l2) :
    subtotal l1 = subtotal l2 := by
  induction h with
  | nil => rfl
  | cons hab _ ih =>
    simp only [subtotal, List.map_cons, List.sum_cons] at ih ⊢
    rw [hab.2.1, hab.2.2.1, ih]

/-- Items matching up to skus have the same fragile fee. -/
theorem fragile_fee_congr {l1 l2 : List LineItem} (h : List.Forall₂ ItemsMatch l1 l2) :
    fragile_fee l1 = fragile_fee l2 := by
  induction h with
  | nil => rfl
  | @cons a b _ _ hab _ ih =>
    simp only [fragile_fee, List.filter_cons] at ih ⊢
    rw [hab.2.2.2.1]
    by_cases hf : b.fragile
    · simp only [hf, if_pos, List.map_cons, List.sum_cons]
      rw [hab.2.2.1, ih]
    · simp only [if_neg hf]
      exact ih

/-- C10: two invoices that both pass validation and agree on every field except the
(non-empty) skus of their line items get identical `(total, warnings)` results from
`compute_total`: sku strings never influence the priced result of a valid invoice. -/
theorem compute_total_sku_independent (inv1 inv2 : Invoice)
    (hid : inv1.invoice_id = inv2.invoice_id)
    (hcust : inv1.customer_id = inv2.customer_id)
    (hcountry : inv1.country = inv2.country)
    (hmem : inv1.membership = inv2.membership)
    (hcoupon : inv1.coupon = inv2.coupon)
    (hitems : List.Forall₂ ItemsMatch inv1.items inv2.items)
    (h1 : validate inv1 = []) (h2 : validate inv2 = []) :
    compute_total inv1 = compute_total inv2 := by
  have hst : subtotal inv1.items = subtotal inv2.items := subtotal_congr hitems
  have hfr : fragile_fee inv1.items = fragile_fee inv2.items := fragile_fee_congr hitems
  have hdisc : ∀ s, discount inv1 s = discount inv2 s := by
    intro s
    rw [discount, discount, hmem, hcoupon]
  have haw : ∀ s, append_warnings inv1 s = append_warnings inv2 s := by
    intro s
    rw [append_warnings, append_warnings, hmem]
  simp only [compute_total, h1, h2, hst, hfr, hcountry, hdisc, haw]

/-- `wInv` with both sku strings renamed. -/
def wInvRenamed : Invoice :=
  { invoice_id := "INV-1", customer_id := "C-1", country := "US", membership := "none",
    coupon := none,
    items := [{ sku := "ZZZ-9", category := "other", unit_price := 250, qty := 1,
                fragile := false }] }

/-- Witness for C10: renaming the sku of `wInv`'s single item leaves the result
unchanged. -/
theorem compute_total_sku_independent_witness :
    compute_total wInv = compute_total wInvRenamed :=
  compute_total_sku_independent wInv wInvRenamed rfl rfl rfl rfl rfl
    (List.Forall₂.cons ⟨rfl, rfl, rfl, rfl, by decide, by decide⟩ List.Forall₂.nil)
    (by decide) (by decide)
